import Mathlib

/-!
Shallow embedding of the authentication views of xadmin-server
(src/system/views/auth.py) and of their collaborators, for checking the
natural-language specification against the code.

The view code (RegisterView.post, LoginView.post, LogoutView.post,
save_login_log) is present in the sources and is embedded faithfully,
branch by branch, in `registerPost`, `loginPost`, `logoutPost` and
`save_login_log` below.  The collaborators it calls (the block ledger
`LoginBlockUtil` / `LoginIpBlockUtil` / `check_is_block`, the challenge
gate `check_token_and_captcha`, the credential decoder
`get_username_password`, the login-log serializer, the token lifetime
helper and the blacklist cache) are not among the source files; those
definitions are modelled from the specification's contracts and are
marked as such in their doc comments.

Machine integers do not occur in this logic; time is a `Nat` clock in
seconds, block durations are configured in minutes (the spec's unit).
-/

/-- Error kinds raised inside the authentication pipeline, following the
spec's taxonomy: challenge failures, credential-decoding failures, the
account lock, and the audit-log validation error. -/
inductive AuthError
  | challenge
  | decode
  | locked
  | auditValidation
deriving DecidableEq, Repr

/-- Access/refresh token pair together with the lifetime metadata that
`get_token_lifetime` adds to the response data. -/
structure TokenPair where
  access : String
  refresh : String
  accessExpiresAt : Nat
  refreshExpiresAt : Nat
deriving DecidableEq, Repr

/-- Outcome of a request at the API boundary: a success envelope with
optional token data, an application-coded error envelope
(`ApiResponse(code=..., detail=...)`), or a propagated exception. -/
inductive ApiResult
  | ok (data : Option TokenPair)
  | err (code : Nat) (detail : String)
  | exn (e : AuthError)
deriving DecidableEq, Repr

/-- Application code of an error envelope, `none` for success envelopes
and for propagated exceptions. -/
def ApiResult.codeOf : ApiResult → Option Nat
  | .err c _ => some c
  | _ => none

/-- Association-list lookup used for the small string-keyed maps of the
model. -/
def lookupStr (xs : List (String × String)) (k : String) : Option String :=
  match xs with
  | [] => none
  | (a, b) :: rest => if a = k then some b else lookupStr rest k

/-- An incoming authentication request: the JSON-like body fields
(`username`, `password`, `payload`, `token`, `captcha_code`, `channel`),
the resolved client IP, the user-agent header (absent when the client
sent none), and the request-identity fingerprint derived from IP and
user agent. -/
structure AuthRequest where
  username : String
  password : String
  payload : String
  token : String
  captcha : String
  channel : Option String
  ip : String
  userAgent : Option String
  fingerprint : String

/-- State of the challenge collaborator: temp tokens previously issued
per request fingerprint, and the captcha code associated with each
token. -/
structure ChallengeEnv where
  tokens : List (String × String)
  captchas : List (String × String)

/-- Modelled from the spec: the temp-token half of the challenge gate.
The submitted token must match a previously issued ChallengeToken bound
to the same request fingerprint. -/
def tokenMatches (env : ChallengeEnv) (req : AuthRequest) : Bool :=
  lookupStr env.tokens req.fingerprint == some req.token

/-- Modelled from the spec: the captcha half of the challenge gate.  The
submitted captcha code must match the code associated with the token;
the comparison is case-insensitive. -/
def captchaMatches (env : ChallengeEnv) (req : AuthRequest) : Bool :=
  match lookupStr env.captchas req.token with
  | some code => code.toLower == req.captcha.toLower
  | none => false

/-- Modelled from the spec: `check_token_and_captcha` (called by the
views but not among the source files).  Each enabled check must pass,
otherwise the gate fails with an `AuthChallengeError`; on success the
resolved token is returned for downstream payload decryption. -/
def check_token_and_captcha (env : ChallengeEnv) (tempTokenEnabled captchaEnabled : Bool)
    (req : AuthRequest) : Option String :=
  if tempTokenEnabled && !tokenMatches env req then none
  else if captchaEnabled && !captchaMatches env req then none
  else some req.token

/-- Modelled from the spec: `get_username_password` (called by the views
but not among the source files).  With encryption disabled the fields
are read directly from the payload; with encryption enabled the single
ciphertext blob is decrypted with a key derived from the resolved
challenge token, failing closed.  Empty or missing values fail. -/
def get_username_password (encrypted : Bool)
    (decrypt : String → String → Option (String × String))
    (req : AuthRequest) (token : String) : Option (String × String) :=
  if encrypted then
    match decrypt token req.payload with
    | some (u, p) => if u != "" && p != "" then some (u, p) else none
    | none => none
  else
    if req.username != "" && req.password != "" then some (req.username, req.password)
    else none

/-- Modelled from the spec: a BlockRecord of the block ledger.  Per
identity key it stores the failure counter, the optional block
timestamp, and the cache-level TTL expiry of the record.  A default
(all-zero) record stands for an absent cache entry. -/
structure BlockRecord where
  failedCount : Nat := 0
  blockedUntil : Option Nat := none
  expiresAt : Nat := 0
deriving DecidableEq, Repr

/-- The shared cache backing the block ledger: one BlockRecord per
username and one per client IP. -/
structure CacheState where
  userRec : String → BlockRecord
  ipRec : String → BlockRecord

/-- Failure count of a record as the cache sees it now: an expired
record counts as absent. -/
def liveCount (now : Nat) (r : BlockRecord) : Nat :=
  if now < r.expiresAt then r.failedCount else 0

/-- Whether a record carries a live `blocked_until` flag. -/
def liveBlocked (now : Nat) (r : BlockRecord) : Bool :=
  match r.blockedUntil with
  | some t => decide (now < t)
  | none => false

/-- Modelled from the spec: `check_is_block` (called by LoginView.post
but not among the source files).  Fails, i.e. returns `true`, when
either the username's or the IP's BlockRecord has a live
`blocked_until`. -/
def check_is_block (st : CacheState) (now : Nat) (username ip : String) : Bool :=
  liveBlocked now (st.userRec username) || liveBlocked now (st.ipRec ip)

/-- Static security configuration read by LoginView: feature toggles,
the failed-attempt threshold and block duration (minutes) for the
username key and for the IP key, and the token lifetimes. -/
structure LoginConfig where
  accessEnabled : Bool
  tempTokenEnabled : Bool
  captchaEnabled : Bool
  encryptedEnabled : Bool
  limitCount : Nat
  limitTime : Nat
  ipLimitCount : Nat
  ipLimitTime : Nat
  accessLifetime : Nat
  refreshLifetime : Nat

/-- Modelled from the spec: the per-key half of `on_failure`.  The live
count is incremented by one; when the new count reaches the configured
threshold, `blocked_until` is set to now plus the configured block
duration; the record's cache TTL is refreshed. -/
def bumpRecord (threshold ttlMinutes now : Nat) (r : BlockRecord) : BlockRecord :=
  let c := liveCount now r + 1
  { failedCount := c
    blockedUntil := if threshold ≤ c then some (now + 60 * ttlMinutes) else r.blockedUntil
    expiresAt := now + 60 * ttlMinutes }

/-- Modelled from the spec: `on_failure(username, ip)`, realised in the
view by `LoginBlockUtil.incr_failed_count` and
`LoginIpBlockUtil.set_block_if_need` (neither among the source files).
Both the username's and the IP's counters are incremented, each against
its own threshold and block duration. -/
def on_failure (cfg : LoginConfig) (st : CacheState) (now : Nat) (username ip : String) :
    CacheState :=
  { userRec := fun k =>
      if k = username then bumpRecord cfg.limitCount cfg.limitTime now (st.userRec k)
      else st.userRec k
    ipRec := fun k =>
      if k = ip then bumpRecord cfg.ipLimitCount cfg.ipLimitTime now (st.ipRec k)
      else st.ipRec k }

/-- Modelled from the spec: `on_success(username, ip)`, realised in the
view by `LoginBlockUtil.clean_failed_count` and
`LoginIpBlockUtil.clean_block_if_need` (neither among the source files).
Both records are cleared unconditionally. -/
def on_success (st : CacheState) (username ip : String) : CacheState :=
  { userRec := fun k => if k = username then {} else st.userRec k
    ipRec := fun k => if k = ip then {} else st.ipRec k }

/-- Modelled from the spec: `remaining_attempts(username)`, realised in
the view by `LoginBlockUtil.get_remainder_times`.  Returns
`max(0, threshold - failed_count)`; `Nat` subtraction is exactly that
truncated difference. -/
def get_remainder_times (cfg : LoginConfig) (st : CacheState) (now : Nat) (username : String) :
    Nat :=
  cfg.limitCount - liveCount now (st.userRec username)

/-- One persisted login-attempt record, with the fields
`save_login_log` fills in the source: IP address, browser, operating
system, success status, and raw agent string. -/
structure LoginLogData where
  ipaddress : String
  browser : String
  system : String
  status : Bool
  agent : String
deriving DecidableEq, Repr

/-- Embeds `save_login_log` of src/system/views/auth.py.  The record is
built from the request context and validated; the serializer itself is
not among the source files, so its validation is modelled from the
spec: a missing or unparseable user agent or IP address raises a
validation error (in the source a missing user-agent header already
raises at `request.META` access).  The error is not caught. -/
def save_login_log (req : AuthRequest) (status : Bool) : Except Unit LoginLogData :=
  match req.userAgent with
  | none => Except.error ()
  | some ua =>
    if req.ip = "" then Except.error ()
    else Except.ok { ipaddress := req.ip, browser := ua, system := ua, status := status, agent := ua }

/-- Modelled from the spec: token issuance with lifetime metadata
(`RefreshToken.for_user` plus `get_token_lifetime`, not among the source
files).  Expiry durations come from static configuration. -/
def issue_tokens (accessLifetime refreshLifetime now : Nat) (username : String) : TokenPair :=
  { access := "access-" ++ username
    refresh := "refresh-" ++ username
    accessExpiresAt := now + accessLifetime
    refreshExpiresAt := now + refreshLifetime }

/-- Observable steps of one authentication request, in the order the
view performs them; used to state ordering properties. -/
inductive AuthEvent
  | challengeCheck
  | blockCheck
  | credentialCheck
  | tokenIssue
  | auditWrite (success : Bool)
  | ledgerUpdate
deriving DecidableEq, Repr

/-- Whether an event is a Login Audit Log write. -/
def isAuditWrite : AuthEvent → Bool
  | .auditWrite _ => true
  | _ => false

/-- Whether an event is a Block Ledger update. -/
def isLedgerUpdate : AuthEvent → Bool
  | .ledgerUpdate => true
  | _ => false

/-- Holds when some audit write occurs strictly before some ledger
update in the trace. -/
def auditBeforeLedger : List AuthEvent → Bool
  | [] => false
  | e :: rest => (isAuditWrite e && rest.any isLedgerUpdate) || auditBeforeLedger rest

/-- Holds when some ledger update occurs strictly before some audit
write in the trace. -/
def ledgerBeforeAudit : List AuthEvent → Bool
  | [] => false
  | e :: rest => (isLedgerUpdate e && rest.any isAuditWrite) || ledgerBeforeAudit rest

/-- Detail string of the 9999 envelope while attempts remain, from the
message template in LoginView.post. -/
def tryAgainDetail (timesTry blockTime : Nat) : String :=
  "The username or password you entered is incorrect, please enter it again. You can also try "
    ++ toString timesTry
    ++ " times (The account will be temporarily locked for "
    ++ toString blockTime ++ " minutes)"

/-- Detail string of the 9999 envelope once no attempts remain, from the
message template in LoginView.post. -/
def lockedDetail (blockTime : Nat) : String :=
  "The account has been locked (please contact admin to unlock it or try again after "
    ++ toString blockTime ++ " minutes)"

/-- The collaborators LoginView reads: the user store consulted by the
credential serializer, the challenge state, and the payload decryption
primitive. -/
structure LoginEnv where
  users : List (String × String)
  challenge : ChallengeEnv
  decrypt : String → String → Option (String × String)

/-- Credential verification: the token-obtain serializer accepts the
pair exactly when the user store maps the username to this password. -/
def authenticate (users : List (String × String)) (username password : String) : Bool :=
  lookupStr users username == some password

/-- Everything one call of LoginView.post produces: the response, the
cache state after the call, the audit rows written, and the ordered
event trace. -/
structure LoginOutcome where
  result : ApiResult
  state : CacheState
  logs : List LoginLogData
  events : List AuthEvent

/-- Embeds `LoginView.post` of src/system/views/auth.py, branch by
branch and in the source's statement order: access toggle, challenge
gate, credential decoding, `check_is_block`, credential verification;
on failure the audit write (status false) precedes the ledger
increments and the 9999 envelope is composed from the remainder; on
success the audit write (status true) precedes the ledger reset. -/
def loginPost (cfg : LoginConfig) (env : LoginEnv) (st : CacheState) (now : Nat)
    (req : AuthRequest) : LoginOutcome :=
  if !cfg.accessEnabled then
    { result := ApiResult.err 1001 "Login forbidden", state := st, logs := [], events := [] }
  else
    match check_token_and_captcha env.challenge cfg.tempTokenEnabled cfg.captchaEnabled req with
    | none =>
      { result := .exn .challenge, state := st, logs := [], events := [.challengeCheck] }
    | some token =>
      match get_username_password cfg.encryptedEnabled env.decrypt req token with
      | none =>
        { result := .exn .decode, state := st, logs := [], events := [.challengeCheck] }
      | some (username, password) =>
        if check_is_block st now username req.ip then
          { result := .exn .locked, state := st, logs := []
            events := [.challengeCheck, .blockCheck] }
        else if authenticate env.users username password then
          match save_login_log req true with
          | .error _ =>
            { result := .exn .auditValidation, state := st, logs := []
              events := [.challengeCheck, .blockCheck, .credentialCheck, .tokenIssue] }
          | .ok entry =>
            { result := .ok (some (issue_tokens cfg.accessLifetime cfg.refreshLifetime now username))
              state := on_success st username req.ip
              logs := [entry]
              events := [.challengeCheck, .blockCheck, .credentialCheck, .tokenIssue,
                         .auditWrite true, .ledgerUpdate] }
        else
          match save_login_log req false with
          | .error _ =>
            { result := .exn .auditValidation, state := st, logs := []
              events := [.challengeCheck, .blockCheck, .credentialCheck] }
          | .ok entry =>
            let st2 := on_failure cfg st now username req.ip
            let remainder := get_remainder_times cfg st2 now username
            { result := .err 9999
                (if 0 < remainder then tryAgainDetail remainder cfg.limitTime
                 else lockedDetail cfg.limitTime)
              state := st2
              logs := [entry]
              events := [.challengeCheck, .blockCheck, .credentialCheck,
                         .auditWrite false, .ledgerUpdate] }

/-- Static security configuration read by RegisterView: feature toggles
and token lifetimes. -/
structure RegisterConfig where
  accessEnabled : Bool
  tempTokenEnabled : Bool
  captchaEnabled : Bool
  encryptedEnabled : Bool
  accessLifetime : Nat
  refreshLifetime : Nat

/-- A department row as RegisterView filters it: code, active flag, and
the auto-bind flag. -/
structure DeptRecord where
  code : String
  isActive : Bool
  autoBind : Bool
deriving DecidableEq, Repr

/-- A user row with the fields RegisterView.post sets on creation. -/
structure UserRecord where
  username : String
  password : String
  firstName : String
  nickname : String
  lastLogin : Option Nat
  dept : Option String
deriving DecidableEq, Repr

/-- The collaborators RegisterView reads: the challenge state, the
payload decryption primitive, the configured password-security rules
(modelled from the spec as an abstract predicate, since
`check_password_rules` is not among the source files), and the
department table used for channel auto-binding. -/
structure RegisterEnv where
  challenge : ChallengeEnv
  decrypt : String → String → Option (String × String)
  rulesOk : String → Bool
  depts : List DeptRecord

/-- Department auto-binding of RegisterView.post: prefer an active
auto-bind department whose code equals the channel, else any active
auto-bind department; no binding when the channel is empty. -/
def bindDept (depts : List DeptRecord) (channel : String) : Option String :=
  if channel = "" then none
  else
    match depts.find? (fun d => d.isActive && d.autoBind && d.code == channel) with
    | some d => some d.code
    | none =>
      match depts.find? (fun d => d.isActive && d.autoBind) with
      | some d => some d.code
      | none => none

/-- Everything one call of RegisterView.post produces: the response,
the user table after the call, and the audit rows written. -/
structure RegisterOutcome where
  result : ApiResult
  db : List UserRecord
  logs : List LoginLogData

/-- Embeds `RegisterView.post` of src/system/views/auth.py, branch by
branch and in the source's statement order: access toggle (code 1001),
challenge gate, channel default, credential decoding, password rules
(code 1001), duplicate username (code 1002); then the user row is
created and saved with `last_login = now`, the token pair with lifetime
metadata is issued, and last of all the success audit row is written. -/
def registerPost (cfg : RegisterConfig) (env : RegisterEnv) (db : List UserRecord) (now : Nat)
    (req : AuthRequest) : RegisterOutcome :=
  if !cfg.accessEnabled then
    { result := ApiResult.err 1001 "Registration forbidden", db := db, logs := [] }
  else
    match check_token_and_captcha env.challenge cfg.tempTokenEnabled cfg.captchaEnabled req with
    | none => { result := .exn .challenge, db := db, logs := [] }
    | some token =>
      let channel :=
        match req.channel with
        | some c => c
        | none => "default"
      match get_username_password cfg.encryptedEnabled env.decrypt req token with
      | none => { result := .exn .decode, db := db, logs := [] }
      | some (username, password) =>
        if !env.rulesOk password then
          { result := .err 1001 "Password does not match security rules", db := db, logs := [] }
        else if db.any (fun u => u.username == username) then
          { result := .err 1002 "The username already exists, please try another one"
            db := db, logs := [] }
        else
          let user : UserRecord :=
            { username := username, password := password, firstName := username
              nickname := username, lastLogin := some now
              dept := bindDept env.depts channel }
          match save_login_log req true with
          | .error _ => { result := .exn .auditValidation, db := db ++ [user], logs := [] }
          | .ok entry =>
            { result := .ok (some (issue_tokens cfg.accessLifetime cfg.refreshLifetime now username))
              db := db ++ [user], logs := [entry] }

/-- Modelled from the spec: the token blacklist store
(`BlackAccessTokenCache`, not among the source files).  Entries are
keyed by the pair of user id and access-token hash; the value is the
sentinel together with the TTL the entry was stored with. -/
structure BlacklistState where
  entries : List ((Nat × String) × (Nat × Int))
deriving DecidableEq, Repr

/-- The authenticated context LogoutView.post reads: the raw access
token bytes, the token payload's `exp` and `user_id` claims, and the
optional `refresh` field of the request body. -/
structure LogoutRequest where
  tokenStr : String
  exp : Nat
  userId : Nat
  refresh : Option String

/-- Embeds `LogoutView.post` of src/system/views/auth.py.  The access
token is blacklisted under `(user_id, md5(token))` with TTL
`exp - time.time()`; then, when a refresh token was supplied, it is
revoked at the issuer, any failure being swallowed by the bare
try/except; the view always returns the plain success envelope. -/
def logoutPost (md5hex : String → String) (revokeRefresh : String → Except Unit Unit)
    (st : BlacklistState) (now : Nat) (req : LogoutRequest) : ApiResult × BlacklistState :=
  let timeout : Int := (req.exp : Int) - (now : Int)
  let st2 : BlacklistState :=
    { entries := ((req.userId, md5hex req.tokenStr), (1, timeout)) :: st.entries }
  match req.refresh with
  | some r =>
    match revokeRefresh r with
    | .ok _ => (ApiResult.ok none, st2)
    | .error _ => (ApiResult.ok none, st2)
  | none => (ApiResult.ok none, st2)

/-! Concrete fixtures used by witnesses and counterexamples. -/

/-- A login configuration with every gate feature disabled, threshold 5
failures, 30-minute block, matching the spec's worked scenario. -/
def cfgOpen : LoginConfig :=
  { accessEnabled := true, tempTokenEnabled := false, captchaEnabled := false
    encryptedEnabled := false, limitCount := 5, limitTime := 30
    ipLimitCount := 50, ipLimitTime := 60, accessLifetime := 300, refreshLifetime := 86400 }

/-- A user store holding one account. -/
def envAlice : LoginEnv :=
  { users := [("alice", "secret")]
    challenge := { tokens := [], captchas := [] }
    decrypt := fun _ _ => none }

/-- The empty cache. -/
def stEmpty : CacheState := { userRec := fun _ => {}, ipRec := fun _ => {} }

/-- A cache in which the account is blocked until time 2000. -/
def stBlockedAlice : CacheState :=
  { userRec := fun k =>
      if k = "alice" then { failedCount := 5, blockedUntil := some 2000, expiresAt := 2000 }
      else {}
    ipRec := fun _ => {} }

/-- A cache holding three username failures and two IP failures. -/
def stWorn : CacheState :=
  { userRec := fun k =>
      if k = "alice" then { failedCount := 3, blockedUntil := none, expiresAt := 5000 } else {}
    ipRec := fun k =>
      if k = "1.2.3.4" then { failedCount := 2, blockedUntil := none, expiresAt := 5000 } else {} }

/-- A well-formed request carrying the correct password. -/
def reqAlice : AuthRequest :=
  { username := "alice", password := "secret", payload := "", token := "", captcha := ""
    channel := none, ip := "1.2.3.4", userAgent := some ("Mozilla"), fingerprint := "fp" }

/-- The same request with the user-agent header missing. -/
def reqAliceNoUA : AuthRequest := { reqAlice with userAgent := none }

/-- A request with a wrong password and no user-agent header. -/
def reqBobWrongNoUA : AuthRequest :=
  { username := "bob", password := "wrong", payload := "", token := "", captcha := ""
    channel := none, ip := "5.6.7.8", userAgent := none, fingerprint := "fp2" }

/-- A request with a wrong password and a well-formed context. -/
def reqBobWrong : AuthRequest := { reqBobWrongNoUA with userAgent := some ("UA") }

/-- The audit row `save_login_log` produces for `reqAlice` on success. -/
def logAliceTrue : LoginLogData :=
  { ipaddress := "1.2.3.4", browser := "Mozilla", system := "Mozilla"
    status := true, agent := "Mozilla" }

/-! Helper lemmas about the audit writer, shared by several claims. -/

theorem save_login_log_error_of_bad_ctx (req : AuthRequest) (status : Bool)
    (h : req.userAgent = none ∨ req.ip = "") :
    save_login_log req status = Except.error () := by
  rcases h with h | h
  · simp [save_login_log, h]
  · unfold save_login_log
    cases req.userAgent <;> simp [h]

theorem save_login_log_ok_status (req : AuthRequest) (status : Bool) (entry : LoginLogData)
    (h : save_login_log req status = Except.ok entry) : entry.status = status := by
  unfold save_login_log at h
  split at h
  · cases h
  · split at h
    · cases h
    · have h2 := Except.ok.inj h
      rw [← h2]

/-- C1: a login request whose username or origin IP has a live block is
rejected with the account-locked error before credential verification
is attempted, whatever the submitted password; the cache is left
untouched. -/
theorem login_blocked_rejected_before_credential_check
    (cfg : LoginConfig) (env : LoginEnv) (st : CacheState) (now : Nat) (req : AuthRequest)
    (token username password : String)
    (hAccess : cfg.accessEnabled = true)
    (hGate : check_token_and_captcha env.challenge cfg.tempTokenEnabled cfg.captchaEnabled req
      = some token)
    (hDecode : get_username_password cfg.encryptedEnabled env.decrypt req token
      = some (username, password))
    (hBlocked : check_is_block st now username req.ip = true) :
    (loginPost cfg env st now req).result = ApiResult.exn AuthError.locked ∧
    AuthEvent.credentialCheck ∉ (loginPost cfg env st now req).events := by
  simp [loginPost, hAccess, hGate, hDecode, hBlocked]

/-- C1 witness: at time 1000 the account is blocked until 2000; the
request carries the correct password yet is rejected with the lock
error, and no credential check happens. -/
theorem login_blocked_rejected_witness :
    authenticate envAlice.users ("alice") ("secret") = true ∧
    check_is_block stBlockedAlice 1000 ("alice") ("1.2.3.4") = true ∧
    ((loginPost cfgOpen envAlice stBlockedAlice 1000 reqAlice).result
        = ApiResult.exn AuthError.locked ∧
      AuthEvent.credentialCheck ∉ (loginPost cfgOpen envAlice stBlockedAlice 1000 reqAlice).events) :=
  ⟨by decide, by decide,
    login_blocked_rejected_before_credential_check cfgOpen envAlice stBlockedAlice 1000 reqAlice
      ("") ("alice") ("secret") (by decide) (by decide) (by decide) (by decide)⟩

/-- A cache holding four live username failures and four live IP
failures. -/
def stFourFails : CacheState :=
  { userRec := fun k =>
      if k = "alice" then { failedCount := 4, blockedUntil := none, expiresAt := 9000 } else {}
    ipRec := fun k =>
      if k = "1.2.3.4" then { failedCount := 4, blockedUntil := none, expiresAt := 9000 } else {} }

/-- A request for the existing account with a wrong password and a
well-formed context. -/
def reqAliceWrong : AuthRequest := { reqAlice with password := "badpass" }

/-- The audit row `save_login_log` produces for `reqAliceWrong` on
failure. -/
def logWrongAlice : LoginLogData :=
  { ipaddress := "1.2.3.4", browser := "Mozilla", system := "Mozilla"
    status := false, agent := "Mozilla" }

/-- C2 counterexample: a request that passes credential verification
but carries no user-agent header.  The audit write, which the source
performs before the ledger reset, raises; the request fails and the
pre-existing failure counters (3 for the username, 2 for the IP) are
not cleared.  This refutes the claim that a verified login clears both
counters unconditionally. -/
theorem login_success_reset_counterexample :
    authenticate envAlice.users ("alice") ("secret") = true ∧
    (loginPost cfgOpen envAlice stWorn 1000 reqAliceNoUA).result
      = ApiResult.exn AuthError.auditValidation ∧
    ((loginPost cfgOpen envAlice stWorn 1000 reqAliceNoUA).state.userRec ("alice")).failedCount
      = 3 ∧
    ((loginPost cfgOpen envAlice stWorn 1000 reqAliceNoUA).state.ipRec ("1.2.3.4")).failedCount
      = 2 := by
  refine ⟨by decide, by decide, by decide, by decide⟩

/-- C2 (amended): a login request that passes credential verification
and whose audit-log write succeeds clears both the username's and the
IP's block records unconditionally, whatever their prior contents. -/
theorem login_success_resets_counters
    (cfg : LoginConfig) (env : LoginEnv) (st : CacheState) (now : Nat) (req : AuthRequest)
    (token username password : String) (entry : LoginLogData)
    (hAccess : cfg.accessEnabled = true)
    (hGate : check_token_and_captcha env.challenge cfg.tempTokenEnabled cfg.captchaEnabled req
      = some token)
    (hDecode : get_username_password cfg.encryptedEnabled env.decrypt req token
      = some (username, password))
    (hNotBlocked : check_is_block st now username req.ip = false)
    (hAuth : authenticate env.users username password = true)
    (hAudit : save_login_log req true = Except.ok entry) :
    (loginPost cfg env st now req).state.userRec username = {} ∧
    (loginPost cfg env st now req).state.ipRec req.ip = {} := by
  simp [loginPost, hAccess, hGate, hDecode, hNotBlocked, hAuth, hAudit, on_success]

/-- C2 witness: a successful login with three prior username failures
and two prior IP failures leaves both records cleared. -/
theorem login_success_resets_witness :
    (loginPost cfgOpen envAlice stWorn 1000 reqAlice).state.userRec ("alice") = {} ∧
    (loginPost cfgOpen envAlice stWorn 1000 reqAlice).state.ipRec ("1.2.3.4") = {} :=
  login_success_resets_counters cfgOpen envAlice stWorn 1000 reqAlice
    ("") ("alice") ("secret") logAliceTrue
    (by decide) (by decide) (by decide) (by decide) (by decide) rfl

/-- C3 counterexample: a request that fails credential verification but
carries no user-agent header.  The audit write, performed by the source
before the ledger increments, raises; the request fails and neither
counter is incremented.  This refutes the claim that every failed
verification increments both counters. -/
theorem login_failure_increment_counterexample :
    authenticate envAlice.users ("bob") ("wrong") = false ∧
    (loginPost cfgOpen envAlice stEmpty 0 reqBobWrongNoUA).result
      = ApiResult.exn AuthError.auditValidation ∧
    ¬ (((loginPost cfgOpen envAlice stEmpty 0 reqBobWrongNoUA).state.userRec ("bob")).failedCount
        = liveCount 0 (stEmpty.userRec ("bob")) + 1) ∧
    ¬ (((loginPost cfgOpen envAlice stEmpty 0 reqBobWrongNoUA).state.ipRec ("5.6.7.8")).failedCount
        = liveCount 0 (stEmpty.ipRec ("5.6.7.8")) + 1) := by
  refine ⟨by decide, by decide, by decide, by decide⟩

/-- C3 (amended): on a failed credential verification whose audit-log
write succeeds, both the username's and the IP's live failure counts
are incremented by one, and a count that reaches its configured
threshold sets the corresponding `blocked_until` flag for the
configured duration. -/
theorem login_failure_increments_both_counters
    (cfg : LoginConfig) (env : LoginEnv) (st : CacheState) (now : Nat) (req : AuthRequest)
    (token username password : String) (entry : LoginLogData)
    (hAccess : cfg.accessEnabled = true)
    (hGate : check_token_and_captcha env.challenge cfg.tempTokenEnabled cfg.captchaEnabled req
      = some token)
    (hDecode : get_username_password cfg.encryptedEnabled env.decrypt req token
      = some (username, password))
    (hNotBlocked : check_is_block st now username req.ip = false)
    (hAuth : authenticate env.users username password = false)
    (hAudit : save_login_log req false = Except.ok entry) :
    ((loginPost cfg env st now req).state.userRec username).failedCount
      = liveCount now (st.userRec username) + 1 ∧
    ((loginPost cfg env st now req).state.ipRec req.ip).failedCount
      = liveCount now (st.ipRec req.ip) + 1 ∧
    (cfg.limitCount ≤ liveCount now (st.userRec username) + 1 →
      ((loginPost cfg env st now req).state.userRec username).blockedUntil
        = some (now + 60 * cfg.limitTime)) ∧
    (cfg.ipLimitCount ≤ liveCount now (st.ipRec req.ip) + 1 →
      ((loginPost cfg env st now req).state.ipRec req.ip).blockedUntil
        = some (now + 60 * cfg.ipLimitTime)) := by
  simp only [loginPost, hAccess, hGate, hDecode, hNotBlocked, hAuth, hAudit, Bool.not_true,
    Bool.false_eq_true, if_false, on_failure, bumpRecord]
  simp
  refine ⟨fun h1 h2 => absurd h2 (by omega), fun h1 h2 => absurd h2 (by omega)⟩

/-- C3 witness: the fourth and fifth failures against a threshold of 5.
Here the fifth failure (count 4 + 1 = 5) reaches the threshold and sets
the username block until now + 1800 seconds (30 minutes). -/
theorem login_failure_increments_witness :
    ((loginPost cfgOpen envAlice stFourFails 100 reqAliceWrong).state.userRec ("alice")).failedCount
      = liveCount 100 (stFourFails.userRec ("alice")) + 1 ∧
    ((loginPost cfgOpen envAlice stFourFails 100 reqAliceWrong).state.ipRec ("1.2.3.4")).failedCount
      = liveCount 100 (stFourFails.ipRec ("1.2.3.4")) + 1 ∧
    (cfgOpen.limitCount ≤ liveCount 100 (stFourFails.userRec ("alice")) + 1 →
      ((loginPost cfgOpen envAlice stFourFails 100 reqAliceWrong).state.userRec ("alice")).blockedUntil
        = some (100 + 60 * cfgOpen.limitTime)) ∧
    (cfgOpen.ipLimitCount ≤ liveCount 100 (stFourFails.ipRec ("1.2.3.4")) + 1 →
      ((loginPost cfgOpen envAlice stFourFails 100 reqAliceWrong).state.ipRec ("1.2.3.4")).blockedUntil
        = some (100 + 60 * cfgOpen.ipLimitTime)) :=
  login_failure_increments_both_counters cfgOpen envAlice stFourFails 100 reqAliceWrong
    ("") ("alice") ("badpass") logWrongAlice
    (by decide) (by decide) (by decide) (by decide) (by decide) rfl

/-- C4 counterexample: a login request that fails credential
verification but carries no user-agent header does not return an
application-coded 9999 envelope; the audit validation error aborts the
request first.  This refutes the claim's universal "every failed
verification returns code 9999". -/
theorem login_failure_9999_counterexample :
    authenticate envAlice.users ("bob") ("wrong") = false ∧
    (loginPost cfgOpen envAlice stEmpty 1 reqBobWrongNoUA).result
      = ApiResult.exn AuthError.auditValidation ∧
    ApiResult.codeOf (loginPost cfgOpen envAlice stEmpty 1 reqBobWrongNoUA).result
      ≠ some 9999 := by
  refine ⟨by decide, by decide, by decide⟩

/-- C4 (amended): a login request that fails credential verification
and whose audit-log write succeeds returns code 9999; the detail is the
try-again message embedding the remaining-attempts count and the
configured block time while attempts remain, and the account-locked
message embedding the block time once no attempts remain; the remaining
count is the truncated difference max(0, threshold - failed_count) over
the just-incremented counter. -/
theorem login_failure_returns_9999
    (cfg : LoginConfig) (env : LoginEnv) (st : CacheState) (now : Nat) (req : AuthRequest)
    (token username password : String) (entry : LoginLogData)
    (hAccess : cfg.accessEnabled = true)
    (hGate : check_token_and_captcha env.challenge cfg.tempTokenEnabled cfg.captchaEnabled req
      = some token)
    (hDecode : get_username_password cfg.encryptedEnabled env.decrypt req token
      = some (username, password))
    (hNotBlocked : check_is_block st now username req.ip = false)
    (hAuth : authenticate env.users username password = false)
    (hAudit : save_login_log req false = Except.ok entry)
    (hTime : 0 < cfg.limitTime) :
    (loginPost cfg env st now req).result
      = ApiResult.err 9999
          (if 0 < get_remainder_times cfg (on_failure cfg st now username req.ip) now username
           then tryAgainDetail
                  (get_remainder_times cfg (on_failure cfg st now username req.ip) now username)
                  cfg.limitTime
           else lockedDetail cfg.limitTime) ∧
    get_remainder_times cfg (on_failure cfg st now username req.ip) now username
      = cfg.limitCount - (liveCount now (st.userRec username) + 1) := by
  constructor
  · simp [loginPost, hAccess, hGate, hDecode, hNotBlocked, hAuth, hAudit]
  · have h60 : now < now + 60 * cfg.limitTime := by omega
    simp [get_remainder_times, on_failure, bumpRecord, liveCount, h60]

/-- C4 witness: the fourth failure against threshold 5 with three live
prior failures; one attempt remains, so the 9999 envelope carries the
try-again detail with remainder 1 and block time 30. -/
theorem login_failure_returns_9999_witness :
    (loginPost cfgOpen envAlice stWorn 1000 reqAliceWrong).result
      = ApiResult.err 9999
          (if 0 < get_remainder_times cfgOpen
                    (on_failure cfgOpen stWorn 1000 ("alice") reqAliceWrong.ip) 1000 ("alice")
           then tryAgainDetail
                  (get_remainder_times cfgOpen
                    (on_failure cfgOpen stWorn 1000 ("alice") reqAliceWrong.ip) 1000 ("alice"))
                  cfgOpen.limitTime
           else lockedDetail cfgOpen.limitTime) ∧
    get_remainder_times cfgOpen
        (on_failure cfgOpen stWorn 1000 ("alice") reqAliceWrong.ip) 1000 ("alice")
      = cfgOpen.limitCount - (liveCount 1000 (stWorn.userRec ("alice")) + 1) :=
  login_failure_returns_9999 cfgOpen envAlice stWorn 1000 reqAliceWrong
    ("") ("alice") ("badpass") logWrongAlice
    (by decide) (by decide) (by decide) (by decide) (by decide) rfl (by decide)

/-- C5: every logout request returns the generic success envelope,
whatever the supplied refresh token and whatever the outcome of its
revocation at the issuer: failures are swallowed by the bare
try/except of LogoutView.post. -/
theorem logout_always_generic_success
    (md5hex : String → String) (revokeRefresh : String → Except Unit Unit)
    (st : BlacklistState) (now : Nat) (req : LogoutRequest) :
    (logoutPost md5hex revokeRefresh st now req).fst = ApiResult.ok none := by
  cases hr : req.refresh with
  | none => simp [logoutPost, hr]
  | some r => cases hrv : revokeRefresh r <;> simp [logoutPost, hr, hrv]

/-- C6: every logout request inserts exactly one blacklist entry, keyed
by the pair of the user id and the hash of the access token, with TTL
equal to the token's `exp` claim minus the current time, so the entry's
expiry instant is exactly the token's natural expiry. -/
theorem logout_blacklists_access_token
    (md5hex : String → String) (revokeRefresh : String → Except Unit Unit)
    (st : BlacklistState) (now : Nat) (req : LogoutRequest) :
    ((logoutPost md5hex revokeRefresh st now req).snd).entries
      = ((req.userId, md5hex req.tokenStr), (1, (req.exp : Int) - (now : Int))) :: st.entries ∧
    (now : Int) + ((req.exp : Int) - (now : Int)) = (req.exp : Int) := by
  constructor
  · cases hr : req.refresh with
    | none => simp [logoutPost, hr]
    | some r => cases hrv : revokeRefresh r <;> simp [logoutPost, hr, hrv]
  · ring

/-- C7 counterexample: on a failed login with a well-formed audit
context the event trace of the view is challenge check, block check,
credential check, audit write, ledger update: the audit write precedes
the block-ledger update, contradicting the claimed order. -/
theorem ledger_before_audit_counterexample :
    (loginPost cfgOpen envAlice stEmpty 0 reqBobWrong).events
      = [AuthEvent.challengeCheck, AuthEvent.blockCheck, AuthEvent.credentialCheck,
         AuthEvent.auditWrite false, AuthEvent.ledgerUpdate] ∧
    auditBeforeLedger (loginPost cfgOpen envAlice stEmpty 0 reqBobWrong).events = true := by
  refine ⟨by decide, by decide⟩

/-- C7 (amended): in every authentication attempt the Login Audit Log
write occurs before the Block Ledger update; the ledger update never
precedes the audit write in the view's event trace. -/
theorem audit_write_precedes_ledger_update
    (cfg : LoginConfig) (env : LoginEnv) (st : CacheState) (now : Nat) (req : AuthRequest) :
    ledgerBeforeAudit (loginPost cfg env st now req).events = false := by
  unfold loginPost
  repeat' split
  all_goals rfl

/-- C8: a missing user-agent header or an unparseable (empty) IP makes
the audit write fail with the validation error, and on the login
failure path that error aborts the whole request: no envelope is
composed, no audit row is written, and the error is not swallowed. -/
theorem audit_failure_fails_request
    (cfg : LoginConfig) (env : LoginEnv) (st : CacheState) (now : Nat) (req : AuthRequest)
    (token username password : String)
    (hAccess : cfg.accessEnabled = true)
    (hGate : check_token_and_captcha env.challenge cfg.tempTokenEnabled cfg.captchaEnabled req
      = some token)
    (hDecode : get_username_password cfg.encryptedEnabled env.decrypt req token
      = some (username, password))
    (hNotBlocked : check_is_block st now username req.ip = false)
    (hAuth : authenticate env.users username password = false)
    (hCtx : req.userAgent = none ∨ req.ip = "") :
    save_login_log req false = Except.error () ∧
    save_login_log req true = Except.error () ∧
    (loginPost cfg env st now req).result = ApiResult.exn AuthError.auditValidation ∧
    (loginPost cfg env st now req).logs = [] := by
  have hf := save_login_log_error_of_bad_ctx req false hCtx
  have ht := save_login_log_error_of_bad_ctx req true hCtx
  refine ⟨hf, ht, ?_, ?_⟩ <;>
    simp [loginPost, hAccess, hGate, hDecode, hNotBlocked, hAuth, hf]

/-- C8 witness: a failed login attempt without a user-agent header ends
in the propagated validation error and leaves no audit row. -/
theorem audit_failure_fails_request_witness :
    save_login_log reqBobWrongNoUA false = Except.error () ∧
    save_login_log reqBobWrongNoUA true = Except.error () ∧
    (loginPost cfgOpen envAlice stEmpty 2 reqBobWrongNoUA).result
      = ApiResult.exn AuthError.auditValidation ∧
    (loginPost cfgOpen envAlice stEmpty 2 reqBobWrongNoUA).logs = [] :=
  audit_failure_fails_request cfgOpen envAlice stEmpty 2 reqBobWrongNoUA
    ("") ("bob") ("wrong")
    (by decide) (by decide) (by decide) (by decide) (by decide) (Or.inl rfl)

/-- A registration configuration with every gate feature disabled. -/
def rcfgOpen : RegisterConfig :=
  { accessEnabled := true, tempTokenEnabled := false, captchaEnabled := false
    encryptedEnabled := false, accessLifetime := 300, refreshLifetime := 86400 }

/-- The same configuration with registration turned off. -/
def rcfgClosed : RegisterConfig := { rcfgOpen with accessEnabled := false }

/-- A registration environment accepting every password. -/
def renvAll : RegisterEnv :=
  { challenge := { tokens := [], captchas := [] }
    decrypt := fun _ _ => none
    rulesOk := fun _ => true
    depts := [] }

/-- A registration environment rejecting every password. -/
def renvNoRules : RegisterEnv := { renvAll with rulesOk := fun _ => false }

/-- A well-formed registration request for a fresh username. -/
def reqCarol : AuthRequest :=
  { username := "carol", password := "Str0ngPw", payload := "", token := "", captcha := ""
    channel := none, ip := "9.9.9.9", userAgent := some ("UA9"), fingerprint := "fp3" }

/-- The same registration request with the user-agent header missing. -/
def reqCarolNoUA : AuthRequest := { reqCarol with userAgent := none }

/-- The audit row `save_login_log` produces for `reqCarol` on
success. -/
def logCarolTrue : LoginLogData :=
  { ipaddress := "9.9.9.9", browser := "UA9", system := "UA9", status := true, agent := "UA9" }

/-- C9 counterexample: a registration request that passes the feature,
challenge, password-rule and duplicate-username checks but carries no
user-agent header.  The user row is created, but the audit write raises
and the request fails: no success audit record is written, refuting the
claim's conjunction. -/
theorem register_autologin_counterexample :
    rcfgOpen.accessEnabled = true ∧
    check_token_and_captcha renvAll.challenge rcfgOpen.tempTokenEnabled rcfgOpen.captchaEnabled
        reqCarolNoUA = some ("") ∧
    renvAll.rulesOk ("Str0ngPw") = true ∧
    (([] : List UserRecord).any (fun u => u.username == "carol")) = false ∧
    (registerPost rcfgOpen renvAll [] 5 reqCarolNoUA).logs = [] ∧
    (registerPost rcfgOpen renvAll [] 5 reqCarolNoUA).result
      = ApiResult.exn AuthError.auditValidation := by
  refine ⟨by decide, by decide, by decide, by decide, by decide, by decide⟩

/-- C9 (amended): a registration request that passes the feature,
challenge, password-rule and duplicate-username checks and whose audit
context is valid creates the new user, issues the token pair with
lifetime metadata, sets the user's last_login to the current time, and
writes exactly one success audit record, all in the same request. -/
theorem register_success_autologin
    (cfg : RegisterConfig) (env : RegisterEnv) (db : List UserRecord) (now : Nat)
    (req : AuthRequest) (token username password : String) (entry : LoginLogData)
    (hAccess : cfg.accessEnabled = true)
    (hGate : check_token_and_captcha env.challenge cfg.tempTokenEnabled cfg.captchaEnabled req
      = some token)
    (hDecode : get_username_password cfg.encryptedEnabled env.decrypt req token
      = some (username, password))
    (hRules : env.rulesOk password = true)
    (hFresh : db.any (fun u => u.username == username) = false)
    (hAudit : save_login_log req true = Except.ok entry) :
    (registerPost cfg env db now req).result
      = ApiResult.ok (some (issue_tokens cfg.accessLifetime cfg.refreshLifetime now username)) ∧
    (∃ user : UserRecord,
      (registerPost cfg env db now req).db = db ++ [user] ∧
      user.username = username ∧ user.lastLogin = some now) ∧
    (registerPost cfg env db now req).logs = [entry] ∧
    entry.status = true := by
  constructor
  · simp [registerPost, hAccess, hGate, hDecode, hRules, hFresh, hAudit]
  constructor
  · refine ⟨{ username := username, password := password, firstName := username
              nickname := username, lastLogin := some now
              dept := bindDept env.depts
                (match req.channel with | some c => c | none => "default") }, ?_, rfl, rfl⟩
    simp [registerPost, hAccess, hGate, hDecode, hRules, hFresh, hAudit]
  constructor
  · simp [registerPost, hAccess, hGate, hDecode, hRules, hFresh, hAudit]
  · exact save_login_log_ok_status req true entry hAudit

/-- C9 witness: registering a fresh username with a valid context
creates the user with last_login set, returns the token pair, and
writes one success audit row. -/
theorem register_success_autologin_witness :
    (registerPost rcfgOpen renvAll [] 7 reqCarol).result
      = ApiResult.ok (some (issue_tokens rcfgOpen.accessLifetime rcfgOpen.refreshLifetime 7
          ("carol"))) ∧
    (∃ user : UserRecord,
      (registerPost rcfgOpen renvAll [] 7 reqCarol).db = [] ++ [user] ∧
      user.username = "carol" ∧ user.lastLogin = some 7) ∧
    (registerPost rcfgOpen renvAll [] 7 reqCarol).logs = [logCarolTrue] ∧
    logCarolTrue.status = true :=
  register_success_autologin rcfgOpen renvAll [] 7 reqCarol
    ("") ("carol") ("Str0ngPw") logCarolTrue
    (by decide) (by decide) (by decide) (by decide) (by decide) rfl

/-- C10: a registration whose password fails the security rules is
rejected with application code 1001, the very code used when
registration is disabled, so the two failure kinds carry the same
code. -/
theorem register_password_rule_code_1001
    (cfg : RegisterConfig) (env : RegisterEnv) (db : List UserRecord) (now : Nat)
    (req : AuthRequest) (token username password : String)
    (cfg2 : RegisterConfig) (env2 : RegisterEnv) (db2 : List UserRecord) (now2 : Nat)
    (req2 : AuthRequest)
    (hAccess : cfg.accessEnabled = true)
    (hGate : check_token_and_captcha env.challenge cfg.tempTokenEnabled cfg.captchaEnabled req
      = some token)
    (hDecode : get_username_password cfg.encryptedEnabled env.decrypt req token
      = some (username, password))
    (hRules : env.rulesOk password = false)
    (hAccess2 : cfg2.accessEnabled = false) :
    (registerPost cfg env db now req).result
      = ApiResult.err 1001 "Password does not match security rules" ∧
    (registerPost cfg2 env2 db2 now2 req2).result
      = ApiResult.err 1001 "Registration forbidden" ∧
    ApiResult.codeOf (registerPost cfg env db now req).result
      = ApiResult.codeOf (registerPost cfg2 env2 db2 now2 req2).result := by
  have h1 : (registerPost cfg env db now req).result
      = ApiResult.err 1001 "Password does not match security rules" := by
    simp [registerPost, hAccess, hGate, hDecode, hRules]
  have h2 : (registerPost cfg2 env2 db2 now2 req2).result
      = ApiResult.err 1001 "Registration forbidden" := by
    simp [registerPost, hAccess2]
  exact ⟨h1, h2, by rw [h1, h2]; rfl⟩

/-- C10 witness: a concrete weak-password registration and a concrete
disabled-registration request both come back with code 1001. -/
theorem register_password_rule_code_1001_witness :
    (registerPost rcfgOpen renvNoRules [] 1 reqCarol).result
      = ApiResult.err 1001 "Password does not match security rules" ∧
    (registerPost rcfgClosed renvAll [] 2 reqCarol).result
      = ApiResult.err 1001 "Registration forbidden" ∧
    ApiResult.codeOf (registerPost rcfgOpen renvNoRules [] 1 reqCarol).result
      = ApiResult.codeOf (registerPost rcfgClosed renvAll [] 2 reqCarol).result :=
  register_password_rule_code_1001 rcfgOpen renvNoRules [] 1 reqCarol
    ("") ("carol") ("Str0ngPw") rcfgClosed renvAll [] 2 reqCarol
    (by decide) (by decide) (by decide) (by decide) (by decide)
